import Mathlib

/-!
Shallow embedding of the Delphi Reads Telegram bot conversation core.

The definitions below are translated from the bot source (the conversation
state machine, URL normalizer, duplicate guard, publisher and preview
rendering).  Network-bound collaborators (metadata service, list storage,
summary service) are modelled by passing their observable results as explicit
parameters: the metadata fetch as an `Option UrlMetadata` (`none` = the fetch
threw / non-200), the most recent page of list items by the list of their
links, and the AI summary as an `Option String` (`none` = the summary service
threw its error, which in the source is always reported as OPENAI_ERROR).

JavaScript strings are modelled as Lean `String`s viewed as lists of
characters (`String.data`); `String.prototype.replace` with a string pattern
replaces only the first occurrence, which is modelled explicitly.  The
platform URL parser used for stripping query strings is modelled for
well-formed http(s) URLs: parsing fails exactly when the string has no
scheme separator, and otherwise origin + pathname is scheme://host followed
by the path up to the first query or fragment delimiter.
-/

namespace DelphiReads

/-- Conversation states of the bot (type ReadsState in the source). -/
inductive ReadsState where
  | await_description
  | await_title
  | await_url
  | build
  | none
deriving DecidableEq

/-- Content-type tags (type ReadsTag in the source). -/
inductive ReadsTag where
  | reads
  | tweets
  | media
  | news
  | podcast
  | other
deriving DecidableEq

/-- Sector slugs (type SectorSlug in the source). -/
inductive SectorSlug where
  | general
  | finance
  | infrastructure
  | macro_markets
  | metaverse
deriving DecidableEq

/-- The draft item being built (interface ReadsItem). -/
structure ReadsItem where
  title : String
  link : String
  description : String
  image_url : String
  taxonomy : List SectorSlug
  tags : List ReadsTag
deriving DecidableEq

/-- Per-chat session (interface ReadsSession). -/
structure ReadsSession where
  state : ReadsState
  item : ReadsItem
deriving DecidableEq

/-- Result of the metadata service (interface UrlMetadata). -/
structure UrlMetadata where
  title : Option String
  description : Option String
  image : Option String
deriving DecidableEq

/-- createNewItem from the source: the empty draft. -/
def createNewItem : ReadsItem :=
  { title := "", link := "", description := "", image_url := "", taxonomy := [], tags := [] }

/-- createDefaultSession from the source: state none, empty draft. -/
def createDefaultSession : ReadsSession :=
  { state := ReadsState.none, item := createNewItem }

/-- Boolean prefix test on character lists (models String.prototype.startsWith). -/
def listStartsWith : List Char → List Char → Bool
  | [], _ => true
  | _ :: _, [] => false
  | p :: ps, c :: cs => p == c && listStartsWith ps cs

/-- Boolean substring test on character lists (models String.prototype.includes). -/
def listContainsSub (pat : List Char) : List Char → Bool
  | [] => pat.isEmpty
  | c :: cs => listStartsWith pat (c :: cs) || listContainsSub pat cs

/-- Replace the first occurrence of pat by rep (models String.prototype.replace
with a string pattern, which replaces only the first occurrence). -/
def replaceFirstList (pat rep : List Char) : List Char → List Char
  | [] => []
  | c :: cs =>
    if listStartsWith pat (c :: cs) then rep ++ (c :: cs).drop pat.length
    else c :: replaceFirstList pat rep cs

/-- String wrapper for listStartsWith. -/
def strStartsWith (s pre : String) : Bool := listStartsWith pre.data s.data

/-- String wrapper for listContainsSub. -/
def strIncludes (s pat : String) : Bool := listContainsSub pat.data s.data

/-- String wrapper for replaceFirstList. -/
def replaceFirstStr (s pat rep : String) : String := ⟨replaceFirstList pat.data rep.data s.data⟩

/-- Character count of a string (models .length on the ASCII texts of the source). -/
def strLength (s : String) : Nat := s.data.length

/-- First n characters of a string (models String.prototype.substring(0, n)). -/
def strTake (s : String) (n : Nat) : String := ⟨s.data.take n⟩

/-- Boolean suffix test (used to state that truncated descriptions end in the
ellipsis marker). -/
def strEndsWith (s suffix : String) : Bool := listStartsWith suffix.data.reverse s.data.reverse

/-- Split a character list at the first scheme separator "://" into the part
before it and the part after it; fails when no separator occurs.  Models the
minimal requirement of the platform URL parser used by the source. -/
def splitAtSchemeSep : List Char → Option (List Char × List Char)
  | [] => Option.none
  | c :: cs =>
    if listStartsWith [':', '/', '/'] (c :: cs) then some ([], (c :: cs).drop 3)
    else
      match splitAtSchemeSep cs with
      | some (a, b) => some (c :: a, b)
      | Option.none => Option.none

/-- Origin plus pathname of a URL string (models new URL(u) followed by
u.origin + u.pathname in the source): scheme://host plus the path up to the
first query or fragment delimiter, with "/" for an empty path.  Fails (the
constructor throws) when the string has no scheme separator. -/
def urlOriginPathname (s : String) : Option String :=
  match splitAtSchemeSep s.data with
  | Option.none => Option.none
  | some (scheme, rest) =>
    let host := rest.takeWhile (fun c => !(c == '/' || c == '?' || c == '#'))
    let tail := rest.drop host.length
    let path := tail.takeWhile (fun c => !(c == '?' || c == '#'))
    some ⟨scheme ++ (':' :: '/' :: '/' :: (host ++ (if path.isEmpty then ['/'] else path)))⟩

/-- normalizeUrl from the source.  Returns none when the final URL parse
throws (which the source does not catch). -/
def normalizeUrl (url : String) : Option String :=
  let cleanUrl := if strStartsWith url "http" then url else "https://" ++ url
  let cleanUrl := replaceFirstStr cleanUrl "http://" "https://"
  let cleanUrl := replaceFirstStr cleanUrl "vxtwitter.com" "x.com"
  let cleanUrl := replaceFirstStr cleanUrl "twitter.com" "x.com"
  if strIncludes cleanUrl "x.com" then urlOriginPathname cleanUrl else some cleanUrl

/-- defaultTagsForDomain from the source, in object-key order. -/
def defaultTagsForDomain : List (String × List ReadsTag) :=
  [("bloomberg.com", [ReadsTag.news]),
   ("medium.com", [ReadsTag.reads]),
   ("spotify.com", [ReadsTag.podcast]),
   ("x.com", [ReadsTag.tweets]),
   ("youtube.com", [ReadsTag.media])]

/-- defaultTagsForUrl from the source: the first table key that occurs as a
substring anywhere in the URL wins; no key, no tags. -/
def defaultTagsForUrl (url : String) : List ReadsTag :=
  match defaultTagsForDomain.find? (fun p => strIncludes url p.1) with
  | some p => p.2
  | Option.none => []

/-- The description computed on the metadata-success path of handleUpdateUrl:
truncate to 497 characters plus "..." when longer than 500, keep otherwise,
empty when the service returned none. -/
def metadataDescription (description : Option String) : String :=
  match description with
  | Option.none => ""
  | some d => if 500 < strLength d then strTake d 497 ++ "..." else d

/-- helpText from the source (template literal, with its leading and trailing
newlines). -/
def helpText : String :=
  "\nFor questions or feedback, please post in the Delphi Engineering telegram channel:\n\n[ENGINEERING] Delphi Engineering\n"

/-- The characters escaped by the first regex of cleanTextForMarkdown. -/
def markdownEscapeChars : List Char := "-_*[,]()~\x60>#+=|\x7b\x7d.!".data

/-- First step of cleanTextForMarkdown: prefix each special character with a
backslash (the regex replacement of the capture by backslash-capture). -/
def escapeMarkdownChars : List Char → List Char
  | [] => []
  | c :: cs =>
    (if markdownEscapeChars.contains c then ['\\', c] else [c]) ++ escapeMarkdownChars cs

/-- JavaScript whitespace characters relevant after the newline replacement. -/
def isJsWhitespace (c : Char) : Bool :=
  c == ' ' || c == '\t' || c == '\n' || c == '\r' || c == '\x0b' || c == '\x0c'

/-- Third step of cleanTextForMarkdown: collapse every whitespace run to one
space (the global replacement of one-or-more whitespace by a space).  The
Boolean argument records whether the previous character was whitespace. -/
def collapseWhitespace : Bool → List Char → List Char
  | _, [] => []
  | prevWs, c :: cs =>
    if isJsWhitespace c then
      if prevWs then collapseWhitespace true cs
      else ' ' :: collapseWhitespace true cs
    else c :: collapseWhitespace false cs

/-- cleanTextForMarkdown from the source: escape markdown specials, turn
newlines into spaces, collapse whitespace runs, and replace the at sign by
its fullwidth form. -/
def cleanTextForMarkdown (s : String) : String :=
  ⟨(collapseWhitespace false ((escapeMarkdownChars s.data).map
      (fun c => if c == '\n' then ' ' else c))).map
    (fun c => if c == '@' then '＠' else c)⟩

/-- The types option table from the source. -/
def typeOptions : List (ReadsTag × String) :=
  [(ReadsTag.reads, "Reads"), (ReadsTag.media, "Media"), (ReadsTag.tweets, "Tweets"),
   (ReadsTag.news, "News"), (ReadsTag.podcast, "Podcast"), (ReadsTag.other, "Other")]

/-- The sectors option table from the source. -/
def sectorOptions : List (SectorSlug × String) :=
  [(SectorSlug.general, "General"), (SectorSlug.finance, "DeFi"),
   (SectorSlug.infrastructure, "Infrastructure"), (SectorSlug.macro_markets, "Macro & Markets"),
   (SectorSlug.metaverse, "NFTs & Gaming")]

/-- getOptionLabel from the source, with the trailing fallback of previewText
to the empty string folded in (the source writes getOptionLabel(...) with an
or-empty default); none models an absent first element of the field. -/
def getOptionLabel {α : Type} [DecidableEq α] (options : List (α × String)) (slug : Option α) : String :=
  match slug with
  | Option.none => ""
  | some sl =>
    match options.find? (fun p => decide (p.1 = sl)) with
    | some p => p.2
    | Option.none => ""

/-- previewText from the source: the template literal over the cleaned draft
fields and option labels. -/
def previewText (s : ReadsSession) : String :=
  "here is what we\x27ve got so far:\n\n__*Title*__\n" ++ cleanTextForMarkdown s.item.title ++
  "\n\n__*Description*__\n" ++ cleanTextForMarkdown s.item.description ++
  "\n\n__*Sector*__\n" ++ getOptionLabel sectorOptions s.item.taxonomy.head? ++
  "\n\n__*Type*__\n" ++ getOptionLabel typeOptions s.item.tags.head? ++ "\n"

/-- ensureLinkSet from the source: run the continuation only when the draft
link is nonempty, otherwise reply asking for a link and change nothing. -/
def ensureLinkSetRun (s : ReadsSession) (k : ReadsSession → ReadsSession × List String) :
    ReadsSession × List String :=
  if s.item.link = "" then (s, ["send me a link first"]) else k s

/-- handleNew from the source: reset the session, move to await_url, prompt. -/
def handleNew (_s : ReadsSession) : ReadsSession × List String :=
  ({ state := ReadsState.await_url, item := createNewItem }, ["what url do you want post?"])

/-- handleHelp from the source. -/
def handleHelp (s : ReadsSession) : ReadsSession × List String :=
  ensureLinkSetRun s (fun s => (s, [helpText]))

/-- handleSetTitle from the source. -/
def handleSetTitle (s : ReadsSession) : ReadsSession × List String :=
  ensureLinkSetRun s (fun s => ({ s with state := ReadsState.await_title }, ["what title do you want?"]))

/-- handleSetDescription from the source. -/
def handleSetDescription (s : ReadsSession) : ReadsSession × List String :=
  ensureLinkSetRun s (fun s =>
    ({ s with state := ReadsState.await_description },
     ["what description do you want? type \"none\" for no description"]))

/-- handleSetTaxonomy from the source (handleSetOption with the sector menu;
displayOptionMenu changes no session state). -/
def handleSetTaxonomy (s : ReadsSession) : ReadsSession × List String :=
  ensureLinkSetRun s (fun s => (s, ["Select a sector: "]))

/-- handleSetTag from the source (handleSetOption with the type menu). -/
def handleSetTag (s : ReadsSession) : ReadsSession × List String :=
  ensureLinkSetRun s (fun s => (s, ["Select a type: "]))

/-- replyWithPreview from the source: the preview text then the action menu
prompt; registered for the preview command without any link guard. -/
def replyWithPreview (s : ReadsSession) : ReadsSession × List String :=
  (s, [previewText s, "What would you like to do?"])

/-- nextState from the source: in the build state, dispatch on the first
missing draft field in the order title, sector (taxonomy), type (tags);
otherwise do nothing. -/
def nextState (s : ReadsSession) : ReadsSession × List String :=
  if s.state = ReadsState.build then
    if s.item.title = "" then handleSetTitle s
    else if s.item.taxonomy.length < 1 then handleSetTaxonomy s
    else if s.item.tags.length < 1 then handleSetTag s
    else replyWithPreview s
  else (s, [])

/-- nextBuildState from the source: enter the build state, then dispatch. -/
def nextBuildState (s : ReadsSession) : ReadsSession × List String :=
  nextState { s with state := ReadsState.build }

/-- The next-missing-field contract realized by the checks of nextState:
title, then sector, then tag, and none when all three are set. -/
inductive DraftField where
  | title
  | sector
  | tag
deriving DecidableEq

/-- nextMissingField: the pure completeness rule embodied in the ordered
checks of nextState on the draft. -/
def nextMissingField (item : ReadsItem) : Option DraftField :=
  if item.title = "" then some DraftField.title
  else if item.taxonomy.length < 1 then some DraftField.sector
  else if item.tags.length < 1 then some DraftField.tag
  else Option.none

/-- handleUpdateDescription from the source: reject over-500 inputs and
re-prompt, otherwise store the description (the literal "none" becomes the
empty string) and re-enter the build state. -/
def handleUpdateDescription (description : String) (s : ReadsSession) : ReadsSession × List String :=
  if 500 < strLength description then
    let r := handleSetDescription s
    (r.1, "sorry, that description too long" :: r.2)
  else
    nextBuildState
      { s with item := { s.item with description := if description = "none" then "" else description } }

/-- handleUpdateTitle from the source. -/
def handleUpdateTitle (title : String) (s : ReadsSession) : ReadsSession × List String :=
  nextBuildState { s with item := { s.item with title := title } }

/-- Domain outcomes of the publisher (the error constants of the source). -/
inductive PostError where
  | unauthorized
  | duplicateRead
  | unknown
deriving DecidableEq

/-- The response-status mapping of postRead: 403 throws unauthorized, 409
throws duplicate, any other status above 201 throws unknown, and at most 201
succeeds. -/
def postReadResult (status : Nat) : Option PostError :=
  if status = 403 then some PostError.unauthorized
  else if status = 409 then some PostError.duplicateRead
  else if 201 < status then some PostError.unknown
  else Option.none

/-- handlePost from the source, given the storage API response status: the
link guard, then the attempt reply, then the outcome-directed transition. -/
def handlePost (s : ReadsSession) (status : Nat) : ReadsSession × List String :=
  ensureLinkSetRun s (fun s =>
    match postReadResult status with
    | Option.none =>
      (createDefaultSession,
       ["Attempting to publish...", "Item has been published. Paste another URL to start over."])
    | some PostError.unauthorized =>
      (s, ["Attempting to publish...", "Unauthorized: reach out to engineering for assistance."])
    | some PostError.duplicateRead =>
      (createDefaultSession,
       ["Attempting to publish...", "Oops, this item was already added recently."])
    | some PostError.unknown =>
      (s, ["Attempting to publish...",
           "Oops, something went wrong - try to /publish again or start over with /new"]))

/-- Result of a message handler: ok carries the final session and ordered
replies; threw marks the uncaught exception escaping handleUpdateUrl when the
URL normalizer throws, with the session mutations and replies made before the
throw. -/
inductive HandlerResult where
  | ok (s : ReadsSession) (replies : List String)
  | threw (s : ReadsSession) (replies : List String)
deriving DecidableEq

/-- The final draft carried by a handler result. -/
def resultItem : HandlerResult → ReadsItem
  | HandlerResult.ok s _ => s.item
  | HandlerResult.threw s _ => s.item

/-- The final state carried by a handler result. -/
def resultState : HandlerResult → ReadsState
  | HandlerResult.ok s _ => s.state
  | HandlerResult.threw s _ => s.state

/-- handleUpdateUrl from the source.  The metadata fetch result, the links on
the most recent page of list items (page 1, limit 50), and the AI summary
result are the observable behaviors of the external collaborators. -/
def handleUpdateUrl (url : String) (_s : ReadsSession) (metadata : Option UrlMetadata)
    (recentLinks : List String) (summary : Option String) : HandlerResult :=
  let s1 : ReadsSession := createDefaultSession
  let r1 : List String := ["fetching that url, hang on a sec..."]
  match normalizeUrl url with
  | Option.none => HandlerResult.threw s1 r1
  | some cleanUrl =>
    let s2 : ReadsSession := { s1 with item := { s1.item with link := cleanUrl } }
    match metadata with
    | some m =>
      if recentLinks.any (fun l => l == cleanUrl) then
        HandlerResult.ok createDefaultSession (r1 ++ ["Oops, this url was recently added already"])
      else
        let item3 : ReadsItem :=
          { s2.item with
            title := m.title.getD "",
            tags := defaultTagsForUrl cleanUrl,
            description := metadataDescription m.description,
            image_url := m.image.getD "" }
        let r := nextState { state := ReadsState.build, item := item3 }
        HandlerResult.ok r.1 (r1 ++ r.2)
    | Option.none =>
      match summary with
      | some sum =>
        let item3 : ReadsItem := { s2.item with description := sum, title := cleanUrl, image_url := "" }
        let r := nextState { state := ReadsState.build, item := item3 }
        HandlerResult.ok r.1 (r1 ++ r.2)
      | Option.none =>
        let r := handleNew s2
        HandlerResult.ok r.1 (r1 ++ ["sorry, I could not fetch that url"] ++ r.2)

/-- The bot commands registered in readsBot (commands and their button
actions share the same handlers). -/
inductive BotCommand where
  | help
  | new
  | publish
  | preview
  | setdescription
  | settitle
  | settype
  | setsector
deriving DecidableEq

/-- The command dispatch of readsBot: which handler each command runs.  The
status argument is the storage API response consumed by publish only. -/
def handleCommand (c : BotCommand) (s : ReadsSession) (status : Nat) : ReadsSession × List String :=
  match c with
  | BotCommand.help => handleHelp s
  | BotCommand.new => handleNew s
  | BotCommand.publish => handlePost s status
  | BotCommand.preview => replyWithPreview s
  | BotCommand.setdescription => handleSetDescription s
  | BotCommand.settitle => handleSetTitle s
  | BotCommand.settype => handleSetTag s
  | BotCommand.setsector => handleSetTaxonomy s

/-- A 501-character description, used to exercise the truncation boundary. -/
def longSummary : String := ⟨List.replicate 501 'a'⟩

/-- A session whose draft has a link and a title, sitting in
await_description. -/
def sampleDescSession : ReadsSession :=
  { state := ReadsState.await_description,
    item := { title := "T", link := "https://example.com/a", description := "", image_url := "",
              taxonomy := [], tags := [] } }

/-- A complete draft with its link set, in the build state. -/
def sampleLinkedSession : ReadsSession :=
  { state := ReadsState.build,
    item := { title := "T", link := "https://example.com/a", description := "", image_url := "",
              taxonomy := [SectorSlug.general], tags := [ReadsTag.reads] } }

/-!  Shared lemmas about the string model and the handlers. -/

lemma listStartsWith_iff (p l : List Char) : listStartsWith p l = true ↔ p <+: l := by
  induction p generalizing l with
  | nil => simp [listStartsWith, List.nil_prefix]
  | cons a as ih =>
    cases l with
    | nil => simp [listStartsWith]
    | cons b bs => simp [listStartsWith, List.cons_prefix_cons, ih]

lemma listContainsSub_iff (p l : List Char) : listContainsSub p l = true ↔ p <:+: l := by
  induction l with
  | nil => simp [listContainsSub, List.infix_nil, List.isEmpty_iff]
  | cons c cs ih => simp [listContainsSub, List.infix_cons_iff, listStartsWith_iff, ih]

lemma listStartsWith_append_self (p r : List Char) : listStartsWith p (p ++ r) = true := by
  induction p with
  | nil => rfl
  | cons a as ih => simp [listStartsWith, ih]

lemma replaceFirst_of_not_contains (pat rep l : List Char) (h : listContainsSub pat l = false) :
    replaceFirstList pat rep l = l := by
  induction l with
  | nil => rfl
  | cons c cs ih =>
    simp only [listContainsSub, Bool.or_eq_false_iff] at h
    simp [replaceFirstList, h.1, ih h.2]

lemma strLength_append (a b : String) : strLength (a ++ b) = strLength a + strLength b := by
  simp [strLength, String.data_append]

lemma strLength_longSummary : strLength longSummary = 501 := by
  rw [show strLength longSummary = (List.replicate 501 'a').length from rfl, List.length_replicate]

lemma contains_http_prepend (u : List Char) :
    listContainsSub "http://".data ("https://".data ++ u) = listContainsSub "http://".data u := rfl

lemma contains_vxtwitter_prepend (u : List Char) :
    listContainsSub "vxtwitter.com".data ("https://".data ++ u) =
      listContainsSub "vxtwitter.com".data u := rfl

lemma contains_twitter_prepend (u : List Char) :
    listContainsSub "twitter.com".data ("https://".data ++ u) =
      listContainsSub "twitter.com".data u := rfl

lemma contains_xcom_prepend (u : List Char) :
    listContainsSub "x.com".data ("https://".data ++ u) = listContainsSub "x.com".data u := rfl

lemma contains_vxtwitter_eq_false (u : List Char)
    (ht : listContainsSub "twitter.com".data u = false) :
    listContainsSub "vxtwitter.com".data u = false := by
  by_contra h
  rw [Bool.not_eq_false, listContainsSub_iff] at h
  have h2 : "twitter.com".data <:+: u :=
    List.IsInfix.trans (by rw [← listContainsSub_iff]; rfl) h
  rw [← listContainsSub_iff] at h2
  simp [ht] at h2

/-- On inputs with no literal http prefix and none of the rewritten substrings,
normalizeUrl just prepends the https scheme (rules a-d leave the rest
unchanged). -/
lemma normalizeUrl_no_scheme (url : String)
    (hs : strStartsWith url "http" = false)
    (hx : strIncludes url "x.com" = false)
    (ht : strIncludes url "twitter.com" = false)
    (hh : strIncludes url "http://" = false) :
    normalizeUrl url = some ("https://" ++ url) := by
  obtain ⟨u⟩ := url
  have hh2 : listContainsSub "http://".data u = false := hh
  have ht2 : listContainsSub "twitter.com".data u = false := ht
  have hvx2 : listContainsSub "vxtwitter.com".data u = false := contains_vxtwitter_eq_false u ht2
  have hx2 : listContainsSub "x.com".data u = false := hx
  have e0 : ("https://" ++ (⟨u⟩ : String)) = ⟨"https://".data ++ u⟩ := rfl
  have e1 : replaceFirstStr ⟨"https://".data ++ u⟩ "http://" "https://" = ⟨"https://".data ++ u⟩ := by
    unfold replaceFirstStr
    rw [show (String.mk ("https://".data ++ u)).data = "https://".data ++ u from rfl,
        replaceFirst_of_not_contains _ _ _ (by rw [contains_http_prepend]; exact hh2)]
  have e2 : replaceFirstStr ⟨"https://".data ++ u⟩ "vxtwitter.com" "x.com" = ⟨"https://".data ++ u⟩ := by
    unfold replaceFirstStr
    rw [show (String.mk ("https://".data ++ u)).data = "https://".data ++ u from rfl,
        replaceFirst_of_not_contains _ _ _ (by rw [contains_vxtwitter_prepend]; exact hvx2)]
  have e3 : replaceFirstStr ⟨"https://".data ++ u⟩ "twitter.com" "x.com" = ⟨"https://".data ++ u⟩ := by
    unfold replaceFirstStr
    rw [show (String.mk ("https://".data ++ u)).data = "https://".data ++ u from rfl,
        replaceFirst_of_not_contains _ _ _ (by rw [contains_twitter_prepend]; exact ht2)]
  have e4 : strIncludes ⟨"https://".data ++ u⟩ "x.com" = false := by
    unfold strIncludes
    rw [show (String.mk ("https://".data ++ u)).data = "https://".data ++ u from rfl,
        contains_xcom_prepend]
    exact hx2
  unfold normalizeUrl
  simp only [hs, Bool.false_eq_true, if_false, e0, e1, e2, e3, e4]

lemma nextState_item (s : ReadsSession) : (nextState s).1.item = s.item := by
  unfold nextState handleSetTitle handleSetTaxonomy handleSetTag replyWithPreview ensureLinkSetRun
  split_ifs <;> rfl

lemma nextState_build_title_missing (item : ReadsItem) (ht : item.title = "")
    (hl : item.link ≠ "") :
    nextState { state := ReadsState.build, item := item } =
      ({ state := ReadsState.await_title, item := item }, ["what title do you want?"]) := by
  unfold nextState handleSetTitle ensureLinkSetRun
  simp [ht, hl]

lemma nextState_build_sector_missing (item : ReadsItem) (ht : item.title ≠ "")
    (htax : item.taxonomy = []) (hl : item.link ≠ "") :
    nextState { state := ReadsState.build, item := item } =
      ({ state := ReadsState.build, item := item }, ["Select a sector: "]) := by
  unfold nextState handleSetTaxonomy ensureLinkSetRun
  simp [ht, htax, hl]

lemma nextState_build_state (item : ReadsItem) (hl : item.link ≠ "") :
    (nextState { state := ReadsState.build, item := item }).1.state =
      (if item.title = "" then ReadsState.await_title else ReadsState.build) := by
  unfold nextState handleSetTitle handleSetTaxonomy handleSetTag replyWithPreview ensureLinkSetRun
  split_ifs <;> simp_all

lemma handleUpdateUrl_duplicate (url cleanUrl : String) (s : ReadsSession) (m : UrlMetadata)
    (recentLinks : List String) (summary : Option String)
    (hn : normalizeUrl url = some cleanUrl)
    (hd : recentLinks.any (fun l => l == cleanUrl) = true) :
    handleUpdateUrl url s (some m) recentLinks summary =
      HandlerResult.ok createDefaultSession
        ["fetching that url, hang on a sec...", "Oops, this url was recently added already"] := by
  unfold handleUpdateUrl
  rw [hn]
  simp [hd]

lemma handleUpdateUrl_metadata_populates (url cleanUrl : String) (s : ReadsSession)
    (m : UrlMetadata) (recentLinks : List String) (summary : Option String)
    (hn : normalizeUrl url = some cleanUrl)
    (hd : recentLinks.any (fun l => l == cleanUrl) = false) :
    handleUpdateUrl url s (some m) recentLinks summary =
      HandlerResult.ok
        (nextState { state := ReadsState.build,
                     item := { title := m.title.getD "", link := cleanUrl,
                               description := metadataDescription m.description,
                               image_url := m.image.getD "", taxonomy := [],
                               tags := defaultTagsForUrl cleanUrl } }).1
        ("fetching that url, hang on a sec..." ::
          (nextState { state := ReadsState.build,
                       item := { title := m.title.getD "", link := cleanUrl,
                                 description := metadataDescription m.description,
                                 image_url := m.image.getD "", taxonomy := [],
                                 tags := defaultTagsForUrl cleanUrl } }).2) := by
  unfold handleUpdateUrl
  rw [hn]
  simp [hd, createDefaultSession, createNewItem]

lemma handleUpdateUrl_fallback_summary (url cleanUrl : String) (s : ReadsSession)
    (recentLinks : List String) (sum : String)
    (hn : normalizeUrl url = some cleanUrl) :
    handleUpdateUrl url s Option.none recentLinks (some sum) =
      HandlerResult.ok
        (nextState { state := ReadsState.build,
                     item := { title := cleanUrl, link := cleanUrl, description := sum,
                               image_url := "", taxonomy := [], tags := [] } }).1
        ("fetching that url, hang on a sec..." ::
          (nextState { state := ReadsState.build,
                       item := { title := cleanUrl, link := cleanUrl, description := sum,
                                 image_url := "", taxonomy := [], tags := [] } }).2) := by
  unfold handleUpdateUrl
  rw [hn]
  simp [createDefaultSession, createNewItem]

lemma handleUpdateUrl_unresolved (url cleanUrl : String) (s : ReadsSession)
    (recentLinks : List String)
    (hn : normalizeUrl url = some cleanUrl) :
    handleUpdateUrl url s Option.none recentLinks Option.none =
      HandlerResult.ok { state := ReadsState.await_url, item := createNewItem }
        ["fetching that url, hang on a sec...", "sorry, I could not fetch that url",
         "what url do you want post?"] := by
  unfold handleUpdateUrl
  rw [hn]
  simp [handleNew]

/-!  Claim theorems. -/

/-- Claim C1: when publish is invoked with a link set, postRead maps the
storage response status 403 to Unauthorized, 409 to DuplicateLink, and any
other status above the success range to Unknown; handlePost then resets the
draft and moves the state to none on success and on DuplicateLink, and on
Unauthorized and Unknown notifies the user while leaving both draft and
state unchanged so the user may retry. -/
theorem publish_status_mapping_and_transitions (s : ReadsSession) (status : Nat)
    (h : s.item.link ≠ "") :
    postReadResult 403 = some PostError.unauthorized ∧
    postReadResult 409 = some PostError.duplicateRead ∧
    (201 < status → status ≠ 403 → status ≠ 409 → postReadResult status = some PostError.unknown) ∧
    (postReadResult status = Option.none ↔ status ≤ 201) ∧
    (postReadResult status = Option.none →
      handlePost s status =
        (createDefaultSession,
         ["Attempting to publish...", "Item has been published. Paste another URL to start over."])) ∧
    handlePost s 409 =
      (createDefaultSession,
       ["Attempting to publish...", "Oops, this item was already added recently."]) ∧
    handlePost s 403 =
      (s, ["Attempting to publish...", "Unauthorized: reach out to engineering for assistance."]) ∧
    (postReadResult status = some PostError.unknown →
      handlePost s status =
        (s, ["Attempting to publish...",
             "Oops, something went wrong - try to /publish again or start over with /new"])) := by
  refine ⟨by simp [postReadResult], by simp [postReadResult], ?_, ?_, ?_, ?_, ?_, ?_⟩
  · intro h1 h2 h3
    simp [postReadResult, h1, h2, h3]
  · unfold postReadResult
    split_ifs with h1 h2 h3 <;> simp <;> omega
  · intro hN
    simp [handlePost, ensureLinkSetRun, h, hN]
  · simp [handlePost, ensureLinkSetRun, h, postReadResult]
  · simp [handlePost, ensureLinkSetRun, h, postReadResult]
  · intro hU
    simp [handlePost, ensureLinkSetRun, h, hU]

/-- Claim C1 witness: a concrete 403 publish on a linked session leaves the
session unchanged and notifies the user. -/
theorem publish_status_mapping_and_transitions_witness :
    handlePost sampleLinkedSession 403 =
      (sampleLinkedSession,
       ["Attempting to publish...", "Unauthorized: reach out to engineering for assistance."]) :=
  (publish_status_mapping_and_transitions sampleLinkedSession 500 (by decide)).2.2.2.2.2.2.1

/-- Claim C2: during URL resolution, when the metadata fetch succeeds and the
normalized link equals the link of some item on the most recent page, the
resolution is a duplicate: the user is notified, the draft is reset (so the
metadata never populates it), and the state becomes none. -/
theorem duplicate_guard_blocks_resolution (url cleanUrl : String) (s : ReadsSession)
    (m : UrlMetadata) (recentLinks : List String) (summary : Option String)
    (hn : normalizeUrl url = some cleanUrl)
    (hd : recentLinks.any (fun l => l == cleanUrl) = true) :
    handleUpdateUrl url s (some m) recentLinks summary =
      HandlerResult.ok createDefaultSession
        ["fetching that url, hang on a sec...", "Oops, this url was recently added already"] ∧
    resultState (handleUpdateUrl url s (some m) recentLinks summary) = ReadsState.none ∧
    resultItem (handleUpdateUrl url s (some m) recentLinks summary) = createNewItem := by
  have e := handleUpdateUrl_duplicate url cleanUrl s m recentLinks summary hn hd
  exact ⟨e, by rw [e]; rfl, by rw [e]; rfl⟩

/-- Claim C2 witness: a concrete duplicate link is rejected and the session
is reset. -/
theorem duplicate_guard_blocks_resolution_witness :
    handleUpdateUrl "https://example.com/a" createDefaultSession
        (some { title := Option.none, description := Option.none, image := Option.none })
        ["https://example.com/a"] Option.none =
      HandlerResult.ok createDefaultSession
        ["fetching that url, hang on a sec...", "Oops, this url was recently added already"] :=
  (duplicate_guard_blocks_resolution "https://example.com/a" "https://example.com/a"
    createDefaultSession
    { title := Option.none, description := Option.none, image := Option.none }
    ["https://example.com/a"] Option.none rfl rfl).1

/-- Claim C3 counterexample: when the AI-summary fallback succeeds, the draft
title is NOT left unset; it is overwritten with the normalized link, refuting
the claim that only the description is populated. -/
theorem summary_fallback_counterexample :
    (resultItem (handleUpdateUrl "https://example.org/a" createDefaultSession Option.none []
        (some "a summary"))).title = "https://example.org/a" ∧
    (resultItem (handleUpdateUrl "https://example.org/a" createDefaultSession Option.none []
        (some "a summary"))).description = "a summary" ∧
    ("https://example.org/a" : String) ≠ "" := by
  refine ⟨rfl, rfl, by decide⟩

/-- Claim C3 (amended): when the metadata fetch fails for a non-duplicate
reason, the resolver falls back to the AI summary; on success the description
is set to the summary, the title is set to the normalized link and the image
is cleared; when the summary also fails the user is notified and the session
behaves as the new command, ending in awaiting_url with an empty draft. -/
theorem summary_fallback_behavior (url cleanUrl : String) (s : ReadsSession)
    (recentLinks : List String) (sum : String)
    (hn : normalizeUrl url = some cleanUrl) (hc : cleanUrl ≠ "") :
    handleUpdateUrl url s Option.none recentLinks (some sum) =
      HandlerResult.ok
        { state := ReadsState.build,
          item := { title := cleanUrl, link := cleanUrl, description := sum,
                    image_url := "", taxonomy := [], tags := [] } }
        ["fetching that url, hang on a sec...", "Select a sector: "] ∧
    handleUpdateUrl url s Option.none recentLinks Option.none =
      HandlerResult.ok { state := ReadsState.await_url, item := createNewItem }
        ["fetching that url, hang on a sec...", "sorry, I could not fetch that url",
         "what url do you want post?"] := by
  constructor
  · rw [handleUpdateUrl_fallback_summary url cleanUrl s recentLinks sum hn,
        nextState_build_sector_missing _ hc rfl hc]
  · exact handleUpdateUrl_unresolved url cleanUrl s recentLinks hn

/-- Claim C3 witness: a concrete fallback success populates description,
title and image as the amended claim states. -/
theorem summary_fallback_behavior_witness :
    handleUpdateUrl "https://example.org/a" createDefaultSession Option.none [] (some "a summary") =
      HandlerResult.ok
        { state := ReadsState.build,
          item := { title := "https://example.org/a", link := "https://example.org/a",
                    description := "a summary", image_url := "", taxonomy := [], tags := [] } }
        ["fetching that url, hang on a sec...", "Select a sector: "] :=
  (summary_fallback_behavior "https://example.org/a" "https://example.org/a"
    createDefaultSession [] "a summary" rfl (by decide)).1

/-- Claim C4 counterexample: a 501-character description obtained from the
AI-summary fallback is stored unchanged at length 501, refuting the claim
that every description obtained during URL resolution is truncated to 500
characters. -/
theorem truncation_counterexample :
    (resultItem (handleUpdateUrl "https://example.org/a" createDefaultSession Option.none []
        (some longSummary))).description = longSummary ∧
    strLength longSummary = 501 := by
  refine ⟨rfl, strLength_longSummary⟩

/-- Claim C4 (amended): a description from the metadata service longer than
500 characters is stored as its first 497 characters plus the 3-character
ellipsis (500 total, ending in the marker) and one of at most 500 characters
is stored unchanged; the AI-summary fallback, however, stores the summary
unchanged regardless of length. -/
theorem description_truncation_rules (url cleanUrl d sum : String) (s : ReadsSession)
    (m : UrlMetadata) (recentLinks : List String) (summary : Option String)
    (hn : normalizeUrl url = some cleanUrl)
    (hd : recentLinks.any (fun l => l == cleanUrl) = false) :
    (500 < strLength d →
      metadataDescription (some d) = strTake d 497 ++ "..." ∧
      strLength (metadataDescription (some d)) = 500 ∧
      strEndsWith (metadataDescription (some d)) "..." = true) ∧
    (strLength d ≤ 500 → metadataDescription (some d) = d) ∧
    (resultItem (handleUpdateUrl url s (some m) recentLinks summary)).description
      = metadataDescription m.description ∧
    (resultItem (handleUpdateUrl url s Option.none recentLinks (some sum))).description = sum := by
  refine ⟨?_, ?_, ?_, ?_⟩
  · intro hgt
    have hlen : 500 < d.data.length := hgt
    have he : metadataDescription (some d) = strTake d 497 ++ "..." := by
      simp [metadataDescription, hgt]
    refine ⟨he, ?_, ?_⟩
    · rw [he, strLength_append]
      have h497 : strLength (strTake d 497) = 497 := by
        simp only [strLength, strTake]
        rw [List.length_take]
        exact min_eq_left (by omega)
      rw [h497]
      rfl
    · rw [he]
      unfold strEndsWith
      rw [show (strTake d 497 ++ "...").data = (strTake d 497).data ++ "...".data from
            String.data_append _ _,
          List.reverse_append]
      exact listStartsWith_append_self _ _
  · intro hle
    simp [metadataDescription, Nat.not_lt.mpr hle]
  · rw [handleUpdateUrl_metadata_populates url cleanUrl s m recentLinks summary hn hd]
    simp [resultItem, nextState_item]
  · rw [handleUpdateUrl_fallback_summary url cleanUrl s recentLinks sum hn]
    simp [resultItem, nextState_item]

/-- Claim C4 witness: the 501-character description is truncated on the
metadata path to exactly 500 characters ending in the ellipsis. -/
theorem description_truncation_rules_witness :
    metadataDescription (some longSummary) = strTake longSummary 497 ++ "..." ∧
    strLength (metadataDescription (some longSummary)) = 500 ∧
    strEndsWith (metadataDescription (some longSummary)) "..." = true :=
  (description_truncation_rules "https://example.com/a" "https://example.com/a" longSummary ""
    createDefaultSession { title := Option.none, description := Option.none, image := Option.none }
    [] Option.none rfl rfl).1 (by rw [strLength_longSummary]; omega)

/-- Claim C5 counterexample: a bloomberg.com link resolved through the
AI-summary fallback ends with empty tags even though the default-tag table
maps its domain to news, refuting the claim that every successful resolution
path seeds the tag. -/
theorem tag_seeding_counterexample :
    (resultItem (handleUpdateUrl "https://bloomberg.com/a" createDefaultSession Option.none []
        (some "a summary"))).tags = [] ∧
    defaultTagsForUrl "https://bloomberg.com/a" = [ReadsTag.news] := by
  refine ⟨rfl, rfl⟩

/-- Claim C5 (amended): only the metadata-success path seeds the tag field
from the default-tag-by-domain lookup on the normalized link (bloomberg.com
seeds news, and with no matching domain the tags remain empty); the
AI-summary fallback path leaves the tags empty from the reset. -/
theorem tag_seeding_rules (url cleanUrl sum : String) (s : ReadsSession) (m : UrlMetadata)
    (recentLinks : List String) (summary : Option String)
    (hn : normalizeUrl url = some cleanUrl)
    (hd : recentLinks.any (fun l => l == cleanUrl) = false) :
    (resultItem (handleUpdateUrl url s (some m) recentLinks summary)).tags
      = defaultTagsForUrl cleanUrl ∧
    (resultItem (handleUpdateUrl url s Option.none recentLinks (some sum))).tags = [] ∧
    defaultTagsForUrl "https://bloomberg.com/a" = [ReadsTag.news] ∧
    (∀ u : String, strIncludes u "bloomberg.com" = false → strIncludes u "medium.com" = false →
      strIncludes u "spotify.com" = false → strIncludes u "x.com" = false →
      strIncludes u "youtube.com" = false → defaultTagsForUrl u = []) := by
  refine ⟨?_, ?_, rfl, ?_⟩
  · rw [handleUpdateUrl_metadata_populates url cleanUrl s m recentLinks summary hn hd]
    simp [resultItem, nextState_item]
  · rw [handleUpdateUrl_fallback_summary url cleanUrl s recentLinks sum hn]
    simp [resultItem, nextState_item]
  · intro u h1 h2 h3 h4 h5
    simp [defaultTagsForUrl, defaultTagsForDomain, List.find?, h1, h2, h3, h4, h5]

/-- Claim C5 witness: a concrete metadata-success resolution of a
bloomberg.com link seeds the news tag. -/
theorem tag_seeding_rules_witness :
    (resultItem (handleUpdateUrl "https://bloomberg.com/a" createDefaultSession
        (some { title := Option.none, description := Option.none, image := Option.none })
        [] Option.none)).tags = defaultTagsForUrl "https://bloomberg.com/a" :=
  (tag_seeding_rules "https://bloomberg.com/a" "https://bloomberg.com/a" "" createDefaultSession
    { title := Option.none, description := Option.none, image := Option.none }
    [] Option.none rfl rfl).1

/-- Claim C6: text received in awaiting_description is rejected with a
re-prompt and no session change when longer than 500 characters; otherwise
the description is stored (the literal "none" becoming empty) and the
session re-enters the build state, whose entry dispatch moves it to
awaiting_title exactly when the title is still unset. -/
theorem await_description_transition (s : ReadsSession) (text : String)
    (hstate : s.state = ReadsState.await_description) (hlink : s.item.link ≠ "") :
    (500 < strLength text →
      handleUpdateDescription text s =
        (s, ["sorry, that description too long",
             "what description do you want? type \"none\" for no description"])) ∧
    (strLength text ≤ 500 →
      (handleUpdateDescription text s).1.item =
        { s.item with description := if text = "none" then "" else text } ∧
      (handleUpdateDescription text s).1.state =
        (if s.item.title = "" then ReadsState.await_title else ReadsState.build)) := by
  obtain ⟨st, it⟩ := s
  simp only at hstate hlink
  subst hstate
  constructor
  · intro hgt
    simp [handleUpdateDescription, hgt, handleSetDescription, ensureLinkSetRun, hlink]
  · intro hle
    refine ⟨?_, ?_⟩
    · simp [handleUpdateDescription, Nat.not_lt.mpr hle, nextBuildState, nextState_item]
    · simp only [handleUpdateDescription, Nat.not_lt.mpr hle, if_false, nextBuildState]
      exact nextState_build_state _ hlink

/-- Claim C6 witness: a short description on a titled draft is stored and the
session ends in the build state. -/
theorem await_description_transition_witness :
    (handleUpdateDescription "hello" sampleDescSession).1.item =
      { sampleDescSession.item with description := if "hello" = "none" then "" else "hello" } ∧
    (handleUpdateDescription "hello" sampleDescSession).1.state =
      (if sampleDescSession.item.title = "" then ReadsState.await_title else ReadsState.build) :=
  (await_description_transition sampleDescSession "hello" rfl (by decide)).2 (by decide)

/-- Claim C7 counterexample: the preview command is NOT guarded by the
link-set precondition; with an empty link it renders the preview of the
empty draft and the action menu instead of asking for a link, refuting the
claim that all seven commands are guarded. -/
theorem preview_guard_counterexample :
    handleCommand BotCommand.preview createDefaultSession 200 =
      (createDefaultSession, [previewText createDefaultSession, "What would you like to do?"]) ∧
    ¬ ("send me a link first" ∈ (handleCommand BotCommand.preview createDefaultSession 200).2) := by
  refine ⟨rfl, by decide⟩

/-- Claim C7 (amended): publish, help, settitle, setdescription, settype and
setsector are guarded by the link-set precondition: with an empty link each
replies asking the user to send a link first and leaves state and draft
unchanged; preview is not guarded and instead displays the preview and the
action menu, also leaving the session unchanged. -/
theorem link_guard_on_commands (s : ReadsSession) (status : Nat) (h : s.item.link = "") :
    handleCommand BotCommand.publish s status = (s, ["send me a link first"]) ∧
    handleCommand BotCommand.help s status = (s, ["send me a link first"]) ∧
    handleCommand BotCommand.settitle s status = (s, ["send me a link first"]) ∧
    handleCommand BotCommand.setdescription s status = (s, ["send me a link first"]) ∧
    handleCommand BotCommand.settype s status = (s, ["send me a link first"]) ∧
    handleCommand BotCommand.setsector s status = (s, ["send me a link first"]) ∧
    handleCommand BotCommand.preview s status = (s, [previewText s, "What would you like to do?"]) := by
  simp [handleCommand, handlePost, handleHelp, handleSetTitle, handleSetDescription,
        handleSetTag, handleSetTaxonomy, replyWithPreview, ensureLinkSetRun, h]

/-- Claim C7 witness: publish on a fresh session with no link replies with
the guard message and changes nothing. -/
theorem link_guard_on_commands_witness :
    handleCommand BotCommand.publish createDefaultSession 200 =
      (createDefaultSession, ["send me a link first"]) :=
  (link_guard_on_commands createDefaultSession 200 rfl).1

/-- Claim C8: nextMissingField checks the draft in the fixed order title,
sector, tag: any draft with an unset title reports title (so a draft with
only a sector set reports title, never tag), it returns none exactly when
title, sector and tag are all set, and the build-state dispatch of nextState
moves to awaiting_title exactly when nextMissingField reports title. -/
theorem next_missing_field_contract (item : ReadsItem) (s : ReadsSession) :
    (item.title = "" → nextMissingField item = some DraftField.title) ∧
    (nextMissingField item = Option.none ↔
      item.title ≠ "" ∧ item.taxonomy ≠ [] ∧ item.tags ≠ []) ∧
    (s.state = ReadsState.build → s.item.link ≠ "" →
      ((nextState s).1.state = ReadsState.await_title ↔
        nextMissingField s.item = some DraftField.title)) := by
  refine ⟨?_, ?_, ?_⟩
  · intro h
    simp [nextMissingField, h]
  · unfold nextMissingField
    split_ifs with h1 h2 h3 <;>
      simp_all [Nat.lt_one_iff, List.length_eq_zero, ← List.length_pos_iff_ne_nil]
  · intro hb hl
    obtain ⟨st, it⟩ := s
    simp only at hb hl
    subst hb
    rw [nextState_build_state _ hl]
    by_cases htitle : it.title = ""
    · simp [htitle, nextMissingField]
    · rw [if_neg htitle]
      constructor
      · intro h
        exact absurd h (by decide)
      · intro h
        unfold nextMissingField at h
        rw [if_neg htitle] at h
        split_ifs at h <;> simp_all

/-- Claim C8 witness: a draft with only a sector set reports title as the
next missing field. -/
theorem next_missing_field_contract_witness :
    nextMissingField { title := "", link := "", description := "", image_url := "",
                       taxonomy := [SectorSlug.general], tags := [] } = some DraftField.title :=
  (next_missing_field_contract
    { title := "", link := "", description := "", image_url := "",
      taxonomy := [SectorSlug.general], tags := [] } createDefaultSession).1 rfl

/-- Claim C9 counterexample: normalizeUrl is not total: on the input
http//x.com (a scheme typo mentioning the canonical hostname) the final URL
parse throws, refuting the claim that normalize is a pure string transform
that never fails. -/
theorem normalize_never_fails_counterexample : normalizeUrl "http//x.com" = Option.none := rfl

/-- Claim C9 (amended): normalizeUrl applies, in order: prepend the https
scheme when the input does not start with http, rewrite the first http
scheme occurrence to https, rewrite the alias hostnames twitter.com and
vxtwitter.com to x.com, and when x.com occurs strip the query string and
fragment keeping scheme, host and path — but the final step parses the URL
and throws on unparseable strings, so normalize can fail there. -/
theorem normalize_url_rules (url : String)
    (hs : strStartsWith url "http" = false)
    (hx : strIncludes url "x.com" = false)
    (ht : strIncludes url "twitter.com" = false)
    (hh : strIncludes url "http://" = false) :
    normalizeUrl url = some ("https://" ++ url) ∧
    normalizeUrl "https://x.com/user/status/1?s=20" = some "https://x.com/user/status/1" ∧
    normalizeUrl "http://example.com/a" = some "https://example.com/a" ∧
    normalizeUrl "https://twitter.com/u/status/5?s=20" = some "https://x.com/u/status/5" ∧
    normalizeUrl "https://vxtwitter.com/u/status/5#frag" = some "https://x.com/u/status/5" ∧
    normalizeUrl "twitter.com/a?q=1" = some "https://x.com/a" :=
  ⟨normalizeUrl_no_scheme url hs hx ht hh, rfl, rfl, rfl, rfl, rfl⟩

/-- Claim C9 witness: a schemeless input is normalized by prepending the
https scheme. -/
theorem normalize_url_rules_witness :
    normalizeUrl "example.com/a" = some ("https://" ++ "example.com/a") :=
  (normalize_url_rules "example.com/a" rfl rfl rfl rfl).1

/-- Claim C10: the default-tag lookup matches by substring containment over
the whole normalized URL rather than by parsing the hostname: every URL
containing bloomberg.com anywhere, including in its path as in
https://example.com/bloomberg.com, is seeded with the news tag even though
the hostname is not in the table. -/
theorem default_tag_matches_substring (url : String)
    (hb : strIncludes url "bloomberg.com" = true) :
    defaultTagsForUrl url = [ReadsTag.news] ∧
    defaultTagsForUrl "https://example.com/bloomberg.com" = [ReadsTag.news] ∧
    (resultItem (handleUpdateUrl "https://example.com/bloomberg.com" createDefaultSession
        (some { title := Option.none, description := Option.none, image := Option.none })
        [] Option.none)).tags = [ReadsTag.news] := by
  refine ⟨?_, rfl, rfl⟩
  simp [defaultTagsForUrl, defaultTagsForDomain, List.find?, hb]

/-- Claim C10 witness: a URL whose query mentions bloomberg.com receives the
news tag from the lookup. -/
theorem default_tag_matches_substring_witness :
    defaultTagsForUrl "https://a.io/?q=bloomberg.com" = [ReadsTag.news] :=
  (default_tag_matches_substring "https://a.io/?q=bloomberg.com" rfl).1

end DelphiReads
